import Mathlib

/-!
Verification of the inventory-consistency core of the minichannel retail API:
per-branch stock ledger, stock adjustments, inter-branch stock transfers with a
role-gated approval workflow, and low-stock alerts.

The definitions below are a shallow embedding of the route handlers in
`src/routes/stock-transfers.js` (and their Hono/TypeScript twins in the
unnamed source parts).  The database tables (Prisma models `Stock`,
`StockAdjustment`, `StockTransfer`, `StockAlert`) are embedded as lists inside
a `State` record; each route handler becomes a pure function from a state and
request data to `Except ApiError (State × result)`.  Every error path of the
handlers occurs before the Prisma `$transaction` call, so a handler that fails
returns `.error e` and, by construction, produces no new state — matching the
all-or-nothing transactional behaviour of the source.

Machine integers: the JavaScript quantities are ordinary numbers holding
integers; they are embedded as `Int` with explicit comparisons, exactly as the
handlers compare them.
-/

deriving instance DecidableEq for Except

/-- The user roles of the system (Prisma `Role` enum: used throughout the
routes as the string literals OWNER / MANAGER / ADMIN / KASIR). -/
inductive Role where
  | OWNER
  | MANAGER
  | ADMIN
  | KASIR
deriving DecidableEq, Repr

/-- Status of a stock transfer (`status` column; string literals in the JS). -/
inductive TransferStatus where
  | PENDING
  | COMPLETED
  | CANCELLED
deriving DecidableEq, Repr

/-- The backend `AdjustmentReason` enum targeted by the `reasonMap` object of
POST /adjustment. -/
inductive AdjustmentReason where
  | STOCK_OPNAME
  | DAMAGED
  | LOST
  | OTHER
deriving DecidableEq, Repr

/-- The error outcomes of the handlers, one constructor per distinct
error response family (cf. spec taxonomy §7):
400 validation → `ValidationError`, 401 → `Unauthorized`, 403 → `Forbidden`,
404 → `NotFound`, 400 "Transfer already processed" → `InvalidState`,
400 "Insufficient stock" / "Cannot subtract" → `InsufficientStock`,
500 → `Internal`. -/
inductive ApiError where
  | ValidationError
  | Unauthorized
  | Forbidden
  | NotFound
  | InvalidState
  | InsufficientStock
  | Internal
deriving DecidableEq, Repr

/-- Prisma `Stock` row: quantity per (productVariantId, cabangId); the pair is
a unique composite key in the schema. -/
structure Stock where
  productVariantId : String
  cabangId : String
  quantity : Int
  price : Int
deriving DecidableEq, Repr

/-- Prisma `StockAdjustment` row (audit entry; append-only). -/
structure StockAdjustment where
  productVariantId : String
  cabangId : String
  previousQty : Int
  newQty : Int
  difference : Int
  reason : Option AdjustmentReason
  notes : String
  adjustedById : String
deriving DecidableEq, Repr

/-- Prisma `StockTransfer` row. -/
structure StockTransfer where
  id : String
  transferNo : String
  variantId : String
  fromCabangId : String
  toCabangId : String
  quantity : Int
  transferredById : String
  notes : Option String
  status : TransferStatus
deriving DecidableEq, Repr

/-- Prisma `StockAlert` row: minimum-stock threshold per (variant, branch);
soft-deactivated via `isActive`. -/
structure StockAlert where
  productVariantId : String
  cabangId : String
  minStock : Int
  isActive : Bool
deriving DecidableEq, Repr

/-- The persisted state: the four tables of the inventory core. -/
structure State where
  stocks : List Stock
  adjustments : List StockAdjustment
  transfers : List StockTransfer
  alerts : List StockAlert
deriving DecidableEq, Repr

/-- The authenticated caller (`req.user` as populated by `authMiddleware`). -/
structure AuthUser where
  userId : String
  role : Role
deriving DecidableEq, Repr

/-- The composite-key test used by every `where: { productVariantId_cabangId: … }`
lookup. -/
def stockKeyMatches (v c : String) (s : Stock) : Bool :=
  s.productVariantId == v && s.cabangId == c

/-- `prisma.stock.findUnique` / `findFirst` on the composite key. -/
def findStock (stocks : List Stock) (v c : String) : Option Stock :=
  stocks.find? (stockKeyMatches v c)

/-- Quantity update of the row with the given composite key
(`tx.stock.update` with absolute `quantity`, `increment` or `decrement`). -/
def mapQty (stocks : List Stock) (v c : String) (f : Int → Int) : List Stock :=
  stocks.map fun s => if stockKeyMatches v c s then { s with quantity := f s.quantity } else s

/-- `tx.stock.upsert`: increment the row's quantity when the composite key
exists, otherwise create the row with the given quantity and price. -/
def upsertStockIncrement (stocks : List Stock) (v c : String) (d price : Int) : List Stock :=
  match findStock stocks v c with
  | some _ => mapQty stocks v c (fun q => q + d)
  | none => stocks ++ [{ productVariantId := v, cabangId := c, quantity := d, price := price }]

/-- `prisma.stockTransfer.findUnique({ where: { id } })`. -/
def findTransfer (transfers : List StockTransfer) (id : String) : Option StockTransfer :=
  transfers.find? (fun t => t.id == id)

/-- `prisma.stockAlert.findUnique` on the composite key. -/
def findAlert (alerts : List StockAlert) (v c : String) : Option StockAlert :=
  alerts.find? (fun a => a.productVariantId == v && a.cabangId == c)

/-- The `reasonMap` object of POST /adjustment, entry for entry: the frontend
reason codes are its keys, the backend enum (or explicit `null`) its values. -/
def reasonMapEntries : List (String × Option AdjustmentReason) :=
  [("restock", none),
   ("return", none),
   ("found", none),
   ("correction", some .STOCK_OPNAME),
   ("damaged", some .DAMAGED),
   ("expired", some .DAMAGED),
   ("lost", some .LOST),
   ("sample", some .OTHER),
   ("other_add", some .OTHER),
   ("other_subtract", some .OTHER)]

/-- The closed enumeration of recognised frontend reason codes: the keys of
`reasonMap`. -/
def knownReasonCodes : List String :=
  reasonMapEntries.map Prod.fst

/-- `reasonMap[reason] || null`: a key present with value `null`, an absent
key (JS `undefined`), and an absent `reason` field all yield `null`. -/
def adjustmentReasonOf (reason : Option String) : Option AdjustmentReason :=
  match reason with
  | none => none
  | some r => (reasonMapEntries.lookup r).getD none

/-- POST /adjustment (the AdjustmentRecorder's `createAdjustment`).
Returns the updated stock row and the created adjustment row, as the handler
returns them in its response body. -/
def createAdjustment (st : State) (user : AuthUser) (variantId cabangId typ : String)
    (quantity : Int) (reason notes : Option String) :
    Except ApiError (State × (Stock × StockAdjustment)) :=
  if variantId = "" ∨ cabangId = "" ∨ typ = "" ∨ quantity = 0 then
    .error .ValidationError
  else if user.userId = "" then
    .error .Unauthorized
  else if ¬ (typ = "add" ∨ typ = "subtract") then
    .error .ValidationError
  else if quantity ≤ 0 then
    .error .ValidationError
  else
    match findStock st.stocks variantId cabangId with
    | none => .error .NotFound
    | some stock =>
      let previousQty := stock.quantity
      let difference := if typ = "add" then quantity else -quantity
      let newQty := previousQty + difference
      if newQty < 0 then
        .error .InsufficientStock
      else
        let adjReason := adjustmentReasonOf reason
        let defaultNote :=
          (if typ = "add" then "Tambah" else "Kurang") ++ ": " ++
            (match reason with | some r => r | none => "undefined")
        let note := match notes with
          | some n => if n = "" then defaultNote else n
          | none => defaultNote
        let adj : StockAdjustment :=
          { productVariantId := variantId, cabangId := cabangId,
            previousQty := previousQty, newQty := newQty, difference := difference,
            reason := adjReason, notes := note, adjustedById := user.userId }
        let stocks' := mapQty st.stocks variantId cabangId (fun _ => newQty)
        .ok ({ st with stocks := stocks', adjustments := st.adjustments ++ [adj] },
             ({ stock with quantity := newQty }, adj))

/-- POST / on the stock-transfer router (the TransferCoordinator's
`createTransfer`).  `newId` and `transferNo` stand for the generated row id
and `generateTransferNo()` output, which are not claimed unique. -/
def createTransfer (st : State) (user : AuthUser) (variantId fromCabangId toCabangId : String)
    (quantity : Int) (notes : Option String) (newId transferNo : String) :
    Except ApiError (State × StockTransfer) :=
  if user.role = .KASIR then
    .error .Forbidden
  else if variantId = "" ∨ fromCabangId = "" ∨ toCabangId = "" ∨ quantity = 0 then
    .error .ValidationError
  else if fromCabangId = toCabangId then
    .error .ValidationError
  else if quantity ≤ 0 then
    .error .ValidationError
  else
    match findStock st.stocks variantId fromCabangId with
    | none => .error .NotFound
    | some sourceStock =>
      if sourceStock.quantity < quantity then
        .error .InsufficientStock
      else
        let isAutoApprove := user.role = .MANAGER ∨ user.role = .OWNER
        let transfer : StockTransfer :=
          { id := newId, transferNo := transferNo, variantId := variantId,
            fromCabangId := fromCabangId, toCabangId := toCabangId,
            quantity := quantity, transferredById := user.userId,
            notes := (match notes with
              | some n => if n = "" then none else some n
              | none => none),
            status := if isAutoApprove then .COMPLETED else .PENDING }
        let stocks' :=
          if isAutoApprove then
            upsertStockIncrement
              (mapQty st.stocks variantId fromCabangId (fun q => q - quantity))
              variantId toCabangId quantity sourceStock.price
          else
            st.stocks
        .ok ({ st with stocks := stocks', transfers := st.transfers ++ [transfer] }, transfer)

/-- PATCH /:id/approve (the TransferCoordinator's `approveTransfer`). -/
def approveTransfer (st : State) (user : AuthUser) (id : String) :
    Except ApiError (State × StockTransfer) :=
  if ¬ (user.role = .MANAGER ∨ user.role = .OWNER) then
    .error .Forbidden
  else
    match findTransfer st.transfers id with
    | none => .error .NotFound
    | some transfer =>
      if transfer.status ≠ .PENDING then
        .error .InvalidState
      else
        match findStock st.stocks transfer.variantId transfer.fromCabangId with
        | none => .error .InsufficientStock
        | some sourceStock =>
          if sourceStock.quantity < transfer.quantity then
            .error .InsufficientStock
          else
            let stocks' :=
              upsertStockIncrement
                (mapQty st.stocks transfer.variantId transfer.fromCabangId
                  (fun q => q - transfer.quantity))
                transfer.variantId transfer.toCabangId transfer.quantity sourceStock.price
            let updated := { transfer with status := TransferStatus.COMPLETED }
            let transfers' := st.transfers.map (fun t => if t.id == id then updated else t)
            .ok ({ st with stocks := stocks', transfers := transfers' }, updated)

/-- PATCH /:id/reject (the TransferCoordinator's `rejectTransfer`).
Note the handler checks the transfer's status before the role gate, and its
only role gate is the ADMIN own-transfer restriction. -/
def rejectTransfer (st : State) (user : AuthUser) (id : String) (reason : Option String) :
    Except ApiError (State × StockTransfer) :=
  match findTransfer st.transfers id with
  | none => .error .NotFound
  | some transfer =>
    if transfer.status ≠ .PENDING then
      .error .InvalidState
    else if user.role = .ADMIN ∧ transfer.transferredById ≠ user.userId then
      .error .Forbidden
    else
      let newNotes : Option String :=
        match reason with
        | some r =>
          if r = "" then transfer.notes
          else some (((transfer.notes.getD "") ++ " [CANCELLED: " ++ r ++ "]").trim)
        | none => transfer.notes
      let updated := { transfer with status := TransferStatus.CANCELLED, notes := newNotes }
      let transfers' := st.transfers.map (fun t => if t.id == id then updated else t)
      .ok ({ st with transfers := transfers' }, updated)

/-- POST /alert (the AlertEvaluator's `setAlert`): upserts the threshold with
`isActive = true`, but only after finding a stock row for the pair. -/
def setAlert (st : State) (variantId cabangId : String) (minStock : Int) :
    Except ApiError (State × StockAlert) :=
  if variantId = "" ∨ cabangId = "" then
    .error .ValidationError
  else if minStock < 0 then
    .error .ValidationError
  else
    match findStock st.stocks variantId cabangId with
    | none => .error .NotFound
    | some _ =>
      match findAlert st.alerts variantId cabangId with
      | some _ =>
        let alerts' := st.alerts.map fun a =>
          if a.productVariantId == variantId && a.cabangId == cabangId then
            { a with minStock := minStock, isActive := true }
          else a
        .ok ({ st with alerts := alerts' },
             { productVariantId := variantId, cabangId := cabangId,
               minStock := minStock, isActive := true })
      | none =>
        let alert : StockAlert :=
          { productVariantId := variantId, cabangId := cabangId,
            minStock := minStock, isActive := true }
        .ok ({ st with alerts := st.alerts ++ [alert] }, alert)

/-- DELETE /alert/:variantId/:cabangId (the AlertEvaluator's
`deactivateAlert`): soft-deactivation; a missing row makes the Prisma update
throw, reported as a 500. -/
def deactivateAlert (st : State) (variantId cabangId : String) :
    Except ApiError (State × Unit) :=
  match findAlert st.alerts variantId cabangId with
  | none => .error .Internal
  | some _ =>
    let alerts' := st.alerts.map fun a =>
      if a.productVariantId == variantId && a.cabangId == cabangId then
        { a with isActive := false }
      else a
    .ok ({ st with alerts := alerts' }, ())

/-- GET /alerts/low (the AlertEvaluator's `listLowStock`): the active alerts
(optionally branch-filtered), each joined at read time with the included
stocks of its variant (branch-filtered the same way), kept when the stock row
of the alert's own branch exists and is strictly below the threshold. -/
def listLowStock (st : State) (cabangId : Option String) : List StockAlert :=
  let activeAlerts := st.alerts.filter fun a =>
    a.isActive && (match cabangId with | some c => a.cabangId == c | none => true)
  activeAlerts.filter fun a =>
    let variantStocks := st.stocks.filter fun s =>
      s.productVariantId == a.productVariantId &&
        (match cabangId with | some c => s.cabangId == c | none => true)
    match variantStocks.find? (fun s => s.cabangId == a.cabangId) with
    | some stock => stock.quantity < a.minStock
    | none => false

/-- The state an operation leaves behind: the new state on success, the old
state when the handler answered with an error (every error answer of these
handlers happens outside or before the `$transaction`). -/
def stateAfter {α : Type} (st : State) (r : Except ApiError (State × α)) : State :=
  match r with
  | .ok (st', _) => st'
  | .error _ => st

/-- All stock quantities non-negative (the ledger invariant of spec §3/§8). -/
def allNonneg (st : State) : Prop :=
  ∀ s ∈ st.stocks, 0 ≤ s.quantity

/-- The composite keys of the stock rows, in table order. -/
def stockKeys (stocks : List Stock) : List (String × String) :=
  stocks.map fun s => (s.productVariantId, s.cabangId)

/-- The schema's unique constraint on (productVariantId, cabangId). -/
def wellFormedStocks (stocks : List Stock) : Prop :=
  (stockKeys stocks).Nodup

/-- Transfer rows have positive quantity (spec §3 invariant; enforced at
creation by the quantity validation). -/
def transfersPositive (st : State) : Prop :=
  ∀ t ∈ st.transfers, 0 < t.quantity


/-! ### Concrete example states used by witnesses and counterexamples -/

def emptyState : State := { stocks := [], adjustments := [], transfers := [], alerts := [] }

def unknownReasonState : State :=
  { stocks := [{ productVariantId := "v1", cabangId := "b1", quantity := 10, price := 5 }],
    adjustments := [], transfers := [], alerts := [] }

/-- C2: with a stock row holding quantity Q and a requested subtraction q > Q,
createAdjustment fails with InsufficientStock; the handler answers before the
transaction, so the stock row keeps quantity Q and no adjustment row is
written (`stateAfter` is the unchanged state). -/
theorem createAdjustment_subtract_insufficient
    (st : State) (u : AuthUser) (v c : String) (q : Int) (s : Stock)
    (r n : Option String)
    (hv : v ≠ "") (hc : c ≠ "") (hu : u.userId ≠ "")
    (hfind : findStock st.stocks v c = some s)
    (hnn : 0 ≤ s.quantity) (hgt : s.quantity < q) :
    createAdjustment st u v c "subtract" q r n = .error .InsufficientStock ∧
    stateAfter st (createAdjustment st u v c "subtract" q r n) = st := by
  have hts : ("subtract" : String) ≠ "" := by decide
  have hta : ("subtract" : String) ≠ "add" := by decide
  have hqne : q ≠ 0 := by omega
  have hqle : ¬ q ≤ 0 := by omega
  have hlt : s.quantity + -q < 0 := by omega
  have hmain : createAdjustment st u v c "subtract" q r n = .error .InsufficientStock := by
    simp [createAdjustment, hfind, hv, hc, hu, hts, hta, hqne, hqle, hlt]
  exact ⟨hmain, by rw [hmain]; rfl⟩

/-- Witness for C2 at the spec's concrete numbers: quantity 10, request 15. -/
theorem createAdjustment_subtract_insufficient_witness :
    createAdjustment
      { stocks := [{ productVariantId := "V1", cabangId := "B1", quantity := 10, price := 4 }],
        adjustments := [], transfers := [], alerts := [] }
      { userId := "u1", role := .ADMIN } "V1" "B1" "subtract" 15 none none =
      .error .InsufficientStock :=
  (createAdjustment_subtract_insufficient _ _ _ _ _
    { productVariantId := "V1", cabangId := "B1", quantity := 10, price := 4 }
    none none (by decide) (by decide) (by decide) (by decide) (by decide) (by decide)).1

/-- C10: setAlert on a (variant, branch) pair that has no stock row fails with
NotFound and creates no StockAlert row (ids non-empty and minQty ≥ 0, the only
checks the handler runs before the stock lookup). -/
theorem setAlert_requires_stock (st : State) (v c : String) (m : Int)
    (hv : v ≠ "") (hc : c ≠ "") (hm : 0 ≤ m)
    (hnone : findStock st.stocks v c = none) :
    setAlert st v c m = .error .NotFound ∧
    stateAfter st (setAlert st v c m) = st := by
  have hmlt : ¬ m < 0 := by omega
  have hmain : setAlert st v c m = .error .NotFound := by
    simp [setAlert, hv, hc, hmlt, hnone]
  exact ⟨hmain, by rw [hmain]; rfl⟩

/-- Witness for C10: no stock rows at all, so the ("V1","B1") pair was never
allocated. -/
theorem setAlert_requires_stock_witness :
    setAlert { stocks := [], adjustments := [], transfers := [], alerts := [] } "V1" "B1" 5 =
      .error .NotFound :=
  (setAlert_requires_stock _ "V1" "B1" 5 (by decide) (by decide) (by decide) (by decide)).1

/-- A state with one foreign PENDING transfer, used to exhibit the reject
handler's missing role gate. -/
def rejectGapState : State :=
  { stocks := [{ productVariantId := "v1", cabangId := "b1", quantity := 10, price := 5 }],
    adjustments := [],
    transfers := [{ id := "t1", transferNo := "TRF-20260101-0001", variantId := "v1",
                    fromCabangId := "b1", toCabangId := "b2", quantity := 4,
                    transferredById := "u1", notes := none, status := .PENDING }],
    alerts := [] }

def completedTransferRow : StockTransfer :=
  { id := "t1", transferNo := "TRF-20260101-0002", variantId := "v1",
    fromCabangId := "b1", toCabangId := "b2", quantity := 4,
    transferredById := "u1", notes := none, status := .COMPLETED }

def completedTransferState : State :=
  { stocks := [{ productVariantId := "v1", cabangId := "b1", quantity := 10, price := 5 }],
    adjustments := [],
    transfers := [completedTransferRow],
    alerts := [] }

/-! ### Lookup and update lemmas -/

theorem stockKeyMatches_iff {v c : String} {s : Stock} :
    stockKeyMatches v c s = true ↔ s.productVariantId = v ∧ s.cabangId = c := by
  simp [stockKeyMatches]

theorem findStock_key {stocks : List Stock} {v c : String} {s : Stock}
    (h : findStock stocks v c = some s) : s.productVariantId = v ∧ s.cabangId = c :=
  stockKeyMatches_iff.mp (List.find?_some h)

theorem findStock_mem {stocks : List Stock} {v c : String} {s : Stock}
    (h : findStock stocks v c = some s) : s ∈ stocks :=
  List.mem_of_find?_eq_some h

theorem findStock_eq_of_mem {stocks : List Stock} (hwf : wellFormedStocks stocks)
    {v c : String} {s : Stock} (hs : s ∈ stocks) (hk : stockKeyMatches v c s = true) :
    findStock stocks v c = some s := by
  induction stocks with
  | nil => cases hs
  | cons x xs ih =>
    have hwf' : (x.productVariantId, x.cabangId) ∉ stockKeys xs ∧ (stockKeys xs).Nodup := by
      simpa [wellFormedStocks, stockKeys, List.nodup_cons] using hwf
    rcases List.mem_cons.mp hs with rfl | hmem
    · unfold findStock
      rw [List.find?_cons_of_pos _ hk]
    · by_cases hx : stockKeyMatches v c x
      · exfalso
        apply hwf'.1
        have hkx := stockKeyMatches_iff.mp hx
        have hks := stockKeyMatches_iff.mp hk
        have hmem' : (s.productVariantId, s.cabangId) ∈ stockKeys xs := by
          exact List.mem_map.mpr ⟨s, hmem, rfl⟩
        rw [hkx.1, hkx.2, ← hks.1, ← hks.2]
        exact hmem'
      · unfold findStock
        rw [List.find?_cons_of_neg _ (by simpa using hx)]
        exact ih hwf'.2 hmem

theorem find?_map_of_pred_comm {α : Type} (g : α → α) (p : α → Bool)
    (h : ∀ x, p (g x) = p x) (l : List α) :
    (l.map g).find? p = (l.find? p).map g := by
  induction l with
  | nil => rfl
  | cons x xs ih =>
    by_cases hx : p x
    · simp [List.find?_cons, h, hx]
    · simp [List.find?_cons, h, hx, ih]

theorem findStock_mapQty (stocks : List Stock) (v c v' c' : String) (f : Int → Int) :
    findStock (mapQty stocks v c f) v' c' =
      (findStock stocks v' c').map
        (fun s => if stockKeyMatches v c s then { s with quantity := f s.quantity } else s) := by
  apply find?_map_of_pred_comm
  intro x
  by_cases hx : stockKeyMatches v c x
  · rw [if_pos hx]
    simp [stockKeyMatches]
  · rw [if_neg hx]

theorem findStock_mapQty_self {stocks : List Stock} {v c : String} (f : Int → Int) {s : Stock}
    (h : findStock stocks v c = some s) :
    findStock (mapQty stocks v c f) v c = some { s with quantity := f s.quantity } := by
  rw [findStock_mapQty, h, Option.map_some']
  rw [if_pos (List.find?_some h)]

theorem findStock_mapQty_other (stocks : List Stock) (v c : String) (f : Int → Int)
    (v' c' : String) (hne : c' ≠ c) :
    findStock (mapQty stocks v c f) v' c' = findStock stocks v' c' := by
  rw [findStock_mapQty]
  cases h : findStock stocks v' c' with
  | none => rfl
  | some s =>
    have hk := findStock_key h
    have hfalse : stockKeyMatches v c s = false := by
      simp [stockKeyMatches, hk.2, hne]
    simp [hfalse]

theorem find?_append_some {α : Type} {p : α → Bool} {l₁ : List α} (l₂ : List α) {a : α}
    (h : l₁.find? p = some a) : (l₁ ++ l₂).find? p = some a := by
  rw [List.find?_append, h]; rfl

theorem find?_append_none {α : Type} {p : α → Bool} {l₁ : List α} (l₂ : List α)
    (h : l₁.find? p = none) : (l₁ ++ l₂).find? p = l₂.find? p := by
  rw [List.find?_append, h]; rfl

theorem findStock_upsert_self (stocks : List Stock) (v c : String) (d price : Int) :
    findStock (upsertStockIncrement stocks v c d price) v c =
      match findStock stocks v c with
      | some s => some { s with quantity := s.quantity + d }
      | none => some { productVariantId := v, cabangId := c, quantity := d, price := price } := by
  unfold upsertStockIncrement
  cases h : findStock stocks v c with
  | some s => rw [findStock_mapQty_self _ h]
  | none =>
    show findStock (stocks ++ [_]) v c = _
    unfold findStock at h ⊢
    rw [find?_append_none _ h]
    simp [stockKeyMatches]

theorem findStock_upsert_other (stocks : List Stock) (v c : String) (d price : Int)
    (v' c' : String) (hne : c' ≠ c) :
    findStock (upsertStockIncrement stocks v c d price) v' c' = findStock stocks v' c' := by
  unfold upsertStockIncrement
  cases h : findStock stocks v c with
  | some s => exact findStock_mapQty_other _ _ _ _ _ _ hne
  | none =>
    cases h' : findStock stocks v' c' with
    | some t =>
      unfold findStock at h' ⊢
      exact find?_append_some _ h'
    | none =>
      unfold findStock at h' ⊢
      rw [find?_append_none _ h']
      simp [stockKeyMatches]
      intro hv
      exact fun hc => hne hc.symm

/-! ### Non-negativity preservation lemmas -/

theorem nonneg_mapQty_set {stocks : List Stock} {v c : String} {q : Int}
    (hl : ∀ s ∈ stocks, 0 ≤ s.quantity) (hq : 0 ≤ q) :
    ∀ s ∈ mapQty stocks v c (fun _ => q), 0 ≤ s.quantity := by
  intro s hs
  rcases List.mem_map.mp hs with ⟨x, hx, rfl⟩
  by_cases hk : stockKeyMatches v c x
  · simpa [hk] using hq
  · simpa [hk] using hl x hx

theorem nonneg_mapQty_dec {stocks : List Stock} (hwf : wellFormedStocks stocks)
    {v c : String} {q : Int} {src : Stock}
    (hl : ∀ s ∈ stocks, 0 ≤ s.quantity)
    (hfind : findStock stocks v c = some src) (hq : q ≤ src.quantity) :
    ∀ s ∈ mapQty stocks v c (fun x => x - q), 0 ≤ s.quantity := by
  intro s hs
  rcases List.mem_map.mp hs with ⟨x, hx, rfl⟩
  by_cases hk : stockKeyMatches v c x
  · have hxs : findStock stocks v c = some x := findStock_eq_of_mem hwf hx hk
    rw [hfind] at hxs
    have hsrc : src = x := by injection hxs
    subst hsrc
    simp only [hk, if_pos]
    simp
    omega
  · simpa [hk] using hl x hx

theorem nonneg_upsert {stocks : List Stock} {v c : String} {d price : Int}
    (hl : ∀ s ∈ stocks, 0 ≤ s.quantity) (hd : 0 ≤ d) :
    ∀ s ∈ upsertStockIncrement stocks v c d price, 0 ≤ s.quantity := by
  intro s hs
  unfold upsertStockIncrement at hs
  cases h : findStock stocks v c with
  | some t =>
    rw [h] at hs
    rcases List.mem_map.mp hs with ⟨x, hx, rfl⟩
    by_cases hk : stockKeyMatches v c x
    · have := hl x hx
      simp only [hk, if_pos]
      simp
      omega
    · simpa [hk] using hl x hx
  | none =>
    rw [h] at hs
    rcases List.mem_append.mp hs with hin | hnew
    · exact hl s hin
    · rcases List.mem_singleton.mp hnew with rfl
      exact hd


/-- Claim C4: the reject handler's only role gate is the ADMIN own-transfer check,
so a KASIR caller who is not the requester cancels a foreign PENDING transfer
instead of receiving Forbidden. -/
theorem rejectTransfer_kasir_gap :
    (findTransfer rejectGapState.transfers "t1").map (fun t => t.transferredById) = some "u1" ∧
    (rejectTransfer rejectGapState { userId := "u2", role := .KASIR } "t1" none).toOption.map
        (fun p => p.2.status) = some .CANCELLED := by decide

/-- Claim C3 counterexample: "shrinkage" is not one of the closed reason codes, yet
createAdjustment succeeds (no ValidationError, no write refused) and records
the adjustment with an empty (null) reason. -/
theorem unknownReason_not_rejected :
    "shrinkage" ∉ knownReasonCodes ∧
    (createAdjustment unknownReasonState { userId := "u1", role := .ADMIN }
        "v1" "b1" "add" 5 (some "shrinkage") none).toOption.map
      (fun p => p.2.2.reason) = some none := by decide

theorem lookup_eq_none_of_not_mem_keys {α β : Type} [BEq α] [LawfulBEq α]
    (l : List (α × β)) (a : α) (h : a ∉ l.map Prod.fst) : l.lookup a = none := by
  induction l with
  | nil => rfl
  | cons x xs ih =>
    obtain ⟨k, b⟩ := x
    simp only [List.map_cons, List.mem_cons] at h
    push_neg at h
    have hk : (a == k) = false := beq_eq_false_iff_ne.mpr h.1
    simp only [List.lookup, hk]
    exact ih h.2

/-- Claim C3 amended: an unrecognized reason code is never rejected; on an otherwise
valid adjustment the operation succeeds and the stored reason is silently
coerced to none — the null bucket shared with restock/return/found — rather
than to the catch-all OTHER value. -/
theorem createAdjustment_unknownReason_coerced (st : State) (u : AuthUser)
    (v c typ : String) (q : Int) (s : Stock) (r : String) (n : Option String)
    (hv : v ≠ "") (hc : c ≠ "") (hu : u.userId ≠ "")
    (htyp : typ = "add" ∨ typ = "subtract")
    (hr : r ∉ knownReasonCodes)
    (hfind : findStock st.stocks v c = some s)
    (hq : 0 < q)
    (hok : 0 ≤ s.quantity + (if typ = "add" then q else -q)) :
    (createAdjustment st u v c typ q (some r) n).toOption.map
      (fun p => p.2.2.reason) = some none := by
  have hlook : reasonMapEntries.lookup r = none :=
    lookup_eq_none_of_not_mem_keys _ _ (by simpa [knownReasonCodes] using hr)
  have hqne : q ≠ 0 := by omega
  have hqle : ¬ q ≤ 0 := by omega
  rcases htyp with rfl | rfl
  · have hts : ("add" : String) ≠ "" := by decide
    have hnlt : ¬ s.quantity + q < 0 := by simpa using hok
    simp [createAdjustment, hfind, hv, hc, hu, hts, hqne, hqle, hnlt,
      adjustmentReasonOf, hlook]
    exact ⟨_, _, _, rfl, rfl⟩
  · have hts : ("subtract" : String) ≠ "" := by decide
    have hta : ("subtract" : String) ≠ "add" := by decide
    have hnlt : ¬ s.quantity + -q < 0 := by simpa [hta] using hok
    simp [createAdjustment, hfind, hv, hc, hu, hts, hta, hqne, hqle, hnlt,
      adjustmentReasonOf, hlook]
    exact ⟨_, _, _, rfl, rfl⟩

/-- Witness for the amended C3: reason "shrinkage" on a valid add of 5. -/
theorem createAdjustment_unknownReason_coerced_witness :
    (createAdjustment unknownReasonState { userId := "u1", role := .ADMIN }
        "v1" "b1" "add" 5 (some "shrinkage") (some "note")).toOption.map
      (fun p => p.2.2.reason) = some none :=
  createAdjustment_unknownReason_coerced unknownReasonState _ "v1" "b1" "add" 5
    { productVariantId := "v1", cabangId := "b1", quantity := 10, price := 5 }
    "shrinkage" (some "note") (by decide) (by decide) (by decide) (Or.inl rfl)
    (by decide) (by decide) (by decide) (by decide)

/-- Claim C6 counterexample: with a non-elevated (ADMIN) approver and a transfer id
that does not exist, the handler answers Forbidden — not the NotFound that the
claimed check order (NotFound before Forbidden) would produce. -/
theorem approve_forbidden_before_notFound :
    findTransfer emptyState.transfers "missing" = none ∧
    approveTransfer emptyState { userId := "u1", role := .ADMIN } "missing" = .error .Forbidden ∧
    approveTransfer emptyState { userId := "u1", role := .ADMIN } "missing" ≠ .error .NotFound := by
  decide

/-- Claim C6 amended: approveTransfer runs its checks in the order Forbidden (role
gate), NotFound, InvalidState, InsufficientStock; an InsufficientStock failure
(source row missing or short) leaves all state — in particular the PENDING
transfer — unchanged. -/
theorem approveTransfer_check_order (st : State) (u : AuthUser) (id : String) :
    (¬ (u.role = .MANAGER ∨ u.role = .OWNER) →
      approveTransfer st u id = .error .Forbidden) ∧
    ((u.role = .MANAGER ∨ u.role = .OWNER) → findTransfer st.transfers id = none →
      approveTransfer st u id = .error .NotFound) ∧
    (∀ t, (u.role = .MANAGER ∨ u.role = .OWNER) → findTransfer st.transfers id = some t →
      t.status ≠ .PENDING → approveTransfer st u id = .error .InvalidState) ∧
    (∀ t, (u.role = .MANAGER ∨ u.role = .OWNER) → findTransfer st.transfers id = some t →
      t.status = .PENDING →
      (findStock st.stocks t.variantId t.fromCabangId = none ∨
        (∃ s, findStock st.stocks t.variantId t.fromCabangId = some s ∧
          s.quantity < t.quantity)) →
      approveTransfer st u id = .error .InsufficientStock ∧
      stateAfter st (approveTransfer st u id) = st) := by
  refine ⟨?_, ?_, ?_, ?_⟩
  · intro hrole
    simp [approveTransfer, hrole]
  · intro hrole hnone
    simp [approveTransfer, hrole, hnone]
  · intro t hrole hfind hstat
    simp [approveTransfer, hrole, hfind, hstat]
  · intro t hrole hfind hstat hshort
    have hmain : approveTransfer st u id = .error .InsufficientStock := by
      rcases hshort with hnone | ⟨s, hs, hlt⟩
      · simp [approveTransfer, hrole, hfind, hstat, hnone]
      · simp [approveTransfer, hrole, hfind, hstat, hs, hlt]
    exact ⟨hmain, by rw [hmain]; rfl⟩

/-- Witness for the amended C6 at a concrete non-elevated approver. -/
theorem approveTransfer_check_order_witness :
    approveTransfer emptyState { userId := "u1", role := .ADMIN } "x" = .error .Forbidden :=
  (approveTransfer_check_order emptyState { userId := "u1", role := .ADMIN } "x").1 (by decide)

/-- Claim C7 counterexample: approveTransfer on an already COMPLETED transfer by a
non-elevated (ADMIN) caller fails with Forbidden, not InvalidState. -/
theorem approve_completed_admin_forbidden :
    (findTransfer completedTransferState.transfers "t1").map (fun t => t.status) =
      some .COMPLETED ∧
    approveTransfer completedTransferState { userId := "u1", role := .ADMIN } "t1" =
      .error .Forbidden ∧
    approveTransfer completedTransferState { userId := "u1", role := .ADMIN } "t1" ≠
      .error .InvalidState := by decide

/-- Claim C7 amended: on a COMPLETED or CANCELLED transfer, rejectTransfer fails
with InvalidState for every caller, approveTransfer fails with InvalidState
for an elevated caller and with Forbidden for a non-elevated one, and in all
cases the transfer row and every stock row (the whole state) are unchanged. -/
theorem terminal_transfer_unchanged (st : State) (u : AuthUser) (id : String)
    (t : StockTransfer) (r : Option String)
    (hfind : findTransfer st.transfers id = some t)
    (hterm : t.status = .COMPLETED ∨ t.status = .CANCELLED) :
    ((u.role = .MANAGER ∨ u.role = .OWNER) →
      approveTransfer st u id = .error .InvalidState) ∧
    (¬ (u.role = .MANAGER ∨ u.role = .OWNER) →
      approveTransfer st u id = .error .Forbidden) ∧
    rejectTransfer st u id r = .error .InvalidState ∧
    stateAfter st (approveTransfer st u id) = st ∧
    stateAfter st (rejectTransfer st u id r) = st := by
  have hstat : t.status ≠ .PENDING := by
    rcases hterm with h | h <;> simp [h]
  have hrej : rejectTransfer st u id r = .error .InvalidState := by
    simp [rejectTransfer, hfind, hstat]
  refine ⟨?_, ?_, hrej, ?_, by rw [hrej]; rfl⟩
  · intro hrole
    simp [approveTransfer, hrole, hfind, hstat]
  · intro hrole
    simp [approveTransfer, hrole]
  · by_cases hrole : u.role = .MANAGER ∨ u.role = .OWNER
    · rw [show approveTransfer st u id = .error .InvalidState from by
        simp [approveTransfer, hrole, hfind, hstat]]
      rfl
    · rw [show approveTransfer st u id = .error .Forbidden from by
        simp [approveTransfer, hrole]]
      rfl

/-- Witness for the amended C7: elevated approver and any caller's reject on a
COMPLETED transfer both answer InvalidState. -/
theorem terminal_transfer_unchanged_witness :
    approveTransfer completedTransferState { userId := "m1", role := .MANAGER } "t1" =
      .error .InvalidState ∧
    rejectTransfer completedTransferState { userId := "u1", role := .ADMIN } "t1" none =
      .error .InvalidState :=
  ⟨(terminal_transfer_unchanged completedTransferState { userId := "m1", role := .MANAGER }
      "t1" completedTransferRow none (by decide) (Or.inl (by decide))).1 (Or.inl rfl),
   (terminal_transfer_unchanged completedTransferState { userId := "u1", role := .ADMIN }
      "t1" completedTransferRow none (by decide) (Or.inl (by decide))).2.2.1⟩

/-! ### Success-shape inversion lemmas -/

theorem createAdjustment_ok_inv {st : State} {u : AuthUser} {v c typ : String} {q : Int}
    {r n : Option String} {st' : State} {res : Stock × StockAdjustment}
    (h : createAdjustment st u v c typ q r n = .ok (st', res)) :
    ∃ s d, findStock st.stocks v c = some s ∧ 0 ≤ s.quantity + d ∧
      st'.stocks = mapQty st.stocks v c (fun _ => s.quantity + d) := by
  simp only [createAdjustment] at h
  split at h
  · exact absurd h (by simp)
  · split at h
    · exact absurd h (by simp)
    · split at h
      · exact absurd h (by simp)
      · split at h
        · exact absurd h (by simp)
        · split at h
          · exact absurd h (by simp)
          · next s heq =>
            split at h
            · split at h
              · exact absurd h (by simp)
              · next hge =>
                injection h with h1
                injection h1 with hst hres
                exact ⟨s, q, heq, by omega, by rw [← hst]⟩
            · split at h
              · exact absurd h (by simp)
              · next hge =>
                injection h with h1
                injection h1 with hst hres
                exact ⟨s, -q, heq, by omega, by rw [← hst]⟩

theorem createTransfer_ok_inv {st : State} {u : AuthUser} {v f t : String} {q : Int}
    {n : Option String} {nid tno : String} {st' : State} {res : StockTransfer}
    (h : createTransfer st u v f t q n nid tno = .ok (st', res)) :
    ∃ src, findStock st.stocks v f = some src ∧ 0 < q ∧ q ≤ src.quantity ∧
      (st'.stocks = st.stocks ∨
       st'.stocks =
         upsertStockIncrement (mapQty st.stocks v f (fun x => x - q)) v t q src.price) := by
  simp only [createTransfer] at h
  split at h
  · exact absurd h (by simp)
  · split at h
    · exact absurd h (by simp)
    · split at h
      · exact absurd h (by simp)
      · next hqle =>
        split at h
        · exact absurd h (by simp)
        · next hq0 =>
          split at h
          · exact absurd h (by simp)
          · next src heq =>
            split at h
            · exact absurd h (by simp)
            · next hlt =>
              injection h with h1
              injection h1 with hst hres
              refine ⟨src, heq, by omega, by omega, ?_⟩
              by_cases hrole : u.role = Role.MANAGER ∨ u.role = Role.OWNER
              · right
                rw [← hst]
                simp [hrole]
              · left
                rw [← hst]
                simp [hrole]

theorem approveTransfer_ok_inv {st : State} {u : AuthUser} {id : String}
    {st' : State} {res : StockTransfer}
    (h : approveTransfer st u id = .ok (st', res)) :
    ∃ tr src, findTransfer st.transfers id = some tr ∧
      findStock st.stocks tr.variantId tr.fromCabangId = some src ∧
      tr.quantity ≤ src.quantity ∧
      st'.stocks =
        upsertStockIncrement
          (mapQty st.stocks tr.variantId tr.fromCabangId (fun x => x - tr.quantity))
          tr.variantId tr.toCabangId tr.quantity src.price := by
  simp only [approveTransfer] at h
  split at h
  · exact absurd h (by simp)
  · split at h
    · exact absurd h (by simp)
    · next tr heq =>
      split at h
      · exact absurd h (by simp)
      · split at h
        · exact absurd h (by simp)
        · next src heq2 =>
          split at h
          · exact absurd h (by simp)
          · next hlt =>
            injection h with h1
            injection h1 with hst hres
            exact ⟨tr, src, heq, heq2, by omega, by rw [← hst]⟩

theorem rejectTransfer_ok_inv {st : State} {u : AuthUser} {id : String} {r : Option String}
    {st' : State} {res : StockTransfer}
    (h : rejectTransfer st u id r = .ok (st', res)) :
    st'.stocks = st.stocks := by
  simp only [rejectTransfer] at h
  split at h
  · exact absurd h (by simp)
  · split at h
    · exact absurd h (by simp)
    · split at h
      · exact absurd h (by simp)
      · injection h with h1
        injection h1 with hst hres
        rw [← hst]

theorem setAlert_ok_inv {st : State} {v c : String} {m : Int}
    {st' : State} {res : StockAlert}
    (h : setAlert st v c m = .ok (st', res)) :
    st'.stocks = st.stocks := by
  simp only [setAlert] at h
  split at h
  · exact absurd h (by simp)
  · split at h
    · exact absurd h (by simp)
    · split at h
      · exact absurd h (by simp)
      · split at h
        · injection h with h1
          injection h1 with hst hres
          rw [← hst]
        · injection h with h1
          injection h1 with hst hres
          rw [← hst]

theorem deactivateAlert_ok_inv {st : State} {v c : String}
    {st' : State} {res : Unit}
    (h : deactivateAlert st v c = .ok (st', res)) :
    st'.stocks = st.stocks := by
  simp only [deactivateAlert] at h
  split at h
  · exact absurd h (by simp)
  · injection h with h1
    injection h1 with hst hres
    rw [← hst]

/-- Claim C1: from a state whose stock table satisfies the schema's unique key
constraint, whose transfers carry positive quantities (both hold in every
reachable state), and whose quantities are all ≥ 0, each of the six
operations either fails — returning an error and, by the `Except` embedding,
no new state — or succeeds with every stock quantity still ≥ 0. -/
theorem stock_quantity_invariant (st : State)
    (hwf : wellFormedStocks st.stocks) (htp : transfersPositive st) (hnn : allNonneg st) :
    (∀ u v c typ q r n st' res,
      createAdjustment st u v c typ q r n = .ok (st', res) → allNonneg st') ∧
    (∀ u v f t q n nid tno st' res,
      createTransfer st u v f t q n nid tno = .ok (st', res) → allNonneg st') ∧
    (∀ u id st' res, approveTransfer st u id = .ok (st', res) → allNonneg st') ∧
    (∀ u id r st' res, rejectTransfer st u id r = .ok (st', res) → allNonneg st') ∧
    (∀ v c m st' res, setAlert st v c m = .ok (st', res) → allNonneg st') ∧
    (∀ v c st' res, deactivateAlert st v c = .ok (st', res) → allNonneg st') := by
  refine ⟨?_, ?_, ?_, ?_, ?_, ?_⟩
  · intro u v c typ q r n st' res h
    obtain ⟨s, d, hfind, hge, hstocks⟩ := createAdjustment_ok_inv h
    intro x hx
    rw [hstocks] at hx
    exact nonneg_mapQty_set hnn hge x hx
  · intro u v f t q n nid tno st' res h
    obtain ⟨src, hfind, hq, hsuff, hdisj⟩ := createTransfer_ok_inv h
    rcases hdisj with hsame | hupd
    · intro x hx
      rw [hsame] at hx
      exact hnn x hx
    · intro x hx
      rw [hupd] at hx
      exact nonneg_upsert (nonneg_mapQty_dec hwf hnn hfind hsuff) (le_of_lt hq) x hx
  · intro u id st' res h
    obtain ⟨tr, src, hfindt, hfinds, hsuff, hupd⟩ := approveTransfer_ok_inv h
    have htrq : 0 < tr.quantity := htp tr (List.mem_of_find?_eq_some hfindt)
    intro x hx
    rw [hupd] at hx
    exact nonneg_upsert (nonneg_mapQty_dec hwf hnn hfinds hsuff) (le_of_lt htrq) x hx
  · intro u id r st' res h
    intro x hx
    rw [rejectTransfer_ok_inv h] at hx
    exact hnn x hx
  · intro v c m st' res h
    intro x hx
    rw [setAlert_ok_inv h] at hx
    exact hnn x hx
  · intro v c st' res h
    intro x hx
    rw [deactivateAlert_ok_inv h] at hx
    exact hnn x hx

/-- Witness for claim C1: a successful setAlert on a concrete non-negative state. -/
theorem stock_quantity_invariant_witness :
    allNonneg { stocks := [{ productVariantId := "v1", cabangId := "b1", quantity := 10, price := 5 }],
                adjustments := [], transfers := [],
                alerts := [{ productVariantId := "v1", cabangId := "b1", minStock := 5, isActive := true }] } :=
  (stock_quantity_invariant unknownReasonState
    (by unfold wellFormedStocks stockKeys; decide)
    (by unfold transfersPositive; decide)
    (by unfold allNonneg; decide)).2.2.2.2.1
    "v1" "b1" 5
    { stocks := [{ productVariantId := "v1", cabangId := "b1", quantity := 10, price := 5 }],
      adjustments := [], transfers := [],
      alerts := [{ productVariantId := "v1", cabangId := "b1", minStock := 5, isActive := true }] }
    { productVariantId := "v1", cabangId := "b1", minStock := 5, isActive := true }
    (by decide)

/-! ### createTransfer success shapes per role -/

theorem createTransfer_elevated_ok (st : State) (u : AuthUser)
    (v f t : String) (q : Int) (n : Option String) (nid tno : String) (src : Stock)
    (hrole : u.role = .MANAGER ∨ u.role = .OWNER)
    (hv : v ≠ "") (hf : f ≠ "") (ht : t ≠ "") (hft : f ≠ t)
    (hq : 0 < q) (hfind : findStock st.stocks v f = some src) (hsuff : q ≤ src.quantity) :
    ∃ tr, createTransfer st u v f t q n nid tno =
        .ok ({ st with
               stocks := upsertStockIncrement (mapQty st.stocks v f (fun x => x - q))
                 v t q src.price,
               transfers := st.transfers ++ [tr] }, tr) ∧
      tr.status = .COMPLETED ∧ tr.quantity = q ∧ tr.variantId = v ∧
      tr.fromCabangId = f ∧ tr.toCabangId = t := by
  have hkasir : ¬ u.role = Role.KASIR := by rcases hrole with h | h <;> simp [h]
  have hqne : q ≠ 0 := by omega
  have hqle : ¬ q ≤ 0 := by omega
  have hlt : ¬ src.quantity < q := by omega
  simp [createTransfer, hkasir, hv, hf, ht, hft, hqne, hqle, hfind, hlt, hrole]

theorem createTransfer_admin_pending (st : State) (u : AuthUser)
    (v f t : String) (q : Int) (n : Option String) (nid tno : String) (src : Stock)
    (hrole : u.role = .ADMIN)
    (hv : v ≠ "") (hf : f ≠ "") (ht : t ≠ "") (hft : f ≠ t)
    (hq : 0 < q) (hfind : findStock st.stocks v f = some src) (hsuff : q ≤ src.quantity) :
    ∃ tr, createTransfer st u v f t q n nid tno =
        .ok ({ st with transfers := st.transfers ++ [tr] }, tr) ∧
      tr.status = .PENDING ∧ tr.quantity = q := by
  have hkasir : ¬ u.role = Role.KASIR := by simp [hrole]
  have hnrole : ¬ (u.role = Role.MANAGER ∨ u.role = Role.OWNER) := by simp [hrole]
  have hqne : q ≠ 0 := by omega
  have hqle : ¬ q ≤ 0 := by omega
  have hlt : ¬ src.quantity < q := by omega
  simp [createTransfer, hkasir, hv, hf, ht, hft, hqne, hqle, hfind, hlt, hnrole]

/-- Claim C5 counterexample: a fully valid transfer request (distinct branches,
positive quantity, sufficient source stock) from a KASIR — a role that is not
manager/owner-equivalent — does not create a PENDING transfer: the handler
rejects it with Forbidden before any other check. -/
theorem createTransfer_kasir_no_pending :
    (findStock unknownReasonState.stocks "v1" "b1").map (fun s => s.quantity) = some 10 ∧
    createTransfer unknownReasonState { userId := "k1", role := .KASIR }
      "v1" "b1" "b2" 4 none "t9" "TRF-20260101-0003" = .error .Forbidden := by decide

/-- Claim C5 amended: for a valid createTransfer call, a MANAGER/OWNER requester
gets an auto-approved COMPLETED transfer with the source debited and the
destination credited (created with the source's unit price when absent); an
ADMIN requester gets a PENDING transfer with no stock change; a KASIR
requester is rejected with Forbidden and nothing is created. -/
theorem createTransfer_role_behavior (st : State) (u : AuthUser)
    (v f t : String) (q : Int) (n : Option String) (nid tno : String) (src : Stock)
    (hv : v ≠ "") (hf : f ≠ "") (ht : t ≠ "") (hft : f ≠ t)
    (hq : 0 < q) (hfind : findStock st.stocks v f = some src) (hsuff : q ≤ src.quantity) :
    (u.role = .KASIR →
      createTransfer st u v f t q n nid tno = .error .Forbidden ∧
      stateAfter st (createTransfer st u v f t q n nid tno) = st) ∧
    (u.role = .ADMIN →
      ∃ st' tr, createTransfer st u v f t q n nid tno = .ok (st', tr) ∧
        tr.status = .PENDING ∧ tr.quantity = q ∧
        st'.stocks = st.stocks ∧ st'.transfers = st.transfers ++ [tr]) ∧
    ((u.role = .MANAGER ∨ u.role = .OWNER) →
      ∃ st' tr, createTransfer st u v f t q n nid tno = .ok (st', tr) ∧
        tr.status = .COMPLETED ∧ tr.quantity = q ∧
        st'.transfers = st.transfers ++ [tr] ∧
        findStock st'.stocks v f = some { src with quantity := src.quantity - q } ∧
        (∀ dst, findStock st.stocks v t = some dst →
          findStock st'.stocks v t = some { dst with quantity := dst.quantity + q }) ∧
        (findStock st.stocks v t = none →
          findStock st'.stocks v t =
            some { productVariantId := v, cabangId := t, quantity := q,
                   price := src.price })) := by
  refine ⟨?_, ?_, ?_⟩
  · intro hrole
    have hmain : createTransfer st u v f t q n nid tno = .error .Forbidden := by
      simp [createTransfer, hrole]
    exact ⟨hmain, by rw [hmain]; rfl⟩
  · intro hrole
    obtain ⟨tr, heq, hstat, hq'⟩ :=
      createTransfer_admin_pending st u v f t q n nid tno src hrole hv hf ht hft hq hfind hsuff
    exact ⟨_, tr, heq, hstat, hq', rfl, rfl⟩
  · intro hrole
    obtain ⟨tr, heq, hstat, hq', hvV, hfF, htT⟩ :=
      createTransfer_elevated_ok st u v f t q n nid tno src hrole hv hf ht hft hq hfind hsuff
    refine ⟨_, tr, heq, hstat, hq', rfl, ?_, ?_, ?_⟩
    · show findStock
        (upsertStockIncrement (mapQty st.stocks v f (fun x => x - q)) v t q src.price) v f = _
      rw [findStock_upsert_other _ _ _ _ _ _ _ hft]
      exact findStock_mapQty_self _ hfind
    · intro dst hdst
      show findStock
        (upsertStockIncrement (mapQty st.stocks v f (fun x => x - q)) v t q src.price) v t = _
      rw [findStock_upsert_self,
        findStock_mapQty_other _ _ _ _ _ _ (Ne.symm hft), hdst]
    · intro hdst
      show findStock
        (upsertStockIncrement (mapQty st.stocks v f (fun x => x - q)) v t q src.price) v t = _
      rw [findStock_upsert_self,
        findStock_mapQty_other _ _ _ _ _ _ (Ne.symm hft), hdst]

/-- Witness for the amended C5 at the KASIR conjunct with valid arguments. -/
theorem createTransfer_role_behavior_witness :
    createTransfer unknownReasonState { userId := "k1", role := .KASIR }
      "v1" "b1" "b2" 4 none "t9" "TRF-20260101-0003" = .error .Forbidden :=
  (createTransfer_role_behavior unknownReasonState { userId := "k1", role := .KASIR }
    "v1" "b1" "b2" 4 none "t9" "TRF-20260101-0003"
    { productVariantId := "v1", cabangId := "b1", quantity := 10, price := 5 }
    (by decide) (by decide) (by decide) (by decide) (by decide) (by decide)
    (by decide)).1 rfl |>.1

/-! ### createAdjustment success shapes per direction -/

theorem createAdjustment_add_ok (st : State) (u : AuthUser) (v c : String) (q : Int)
    (r n : Option String) (s : Stock)
    (hv : v ≠ "") (hc : c ≠ "") (hu : u.userId ≠ "")
    (hfind : findStock st.stocks v c = some s)
    (hq : 0 < q) (hok : 0 ≤ s.quantity + q) :
    ∃ adj, createAdjustment st u v c "add" q r n =
        .ok ({ st with stocks := mapQty st.stocks v c (fun _ => s.quantity + q),
                       adjustments := st.adjustments ++ [adj] },
             ({ s with quantity := s.quantity + q }, adj)) ∧
      adj.previousQty = s.quantity ∧ adj.newQty = s.quantity + q ∧ adj.difference = q := by
  have hts : ("add" : String) ≠ "" := by decide
  have hqne : q ≠ 0 := by omega
  have hqle : ¬ q ≤ 0 := by omega
  have hnlt : ¬ s.quantity + q < 0 := by omega
  simp [createAdjustment, hfind, hv, hc, hu, hts, hqne, hqle, hnlt]

theorem createAdjustment_sub_ok (st : State) (u : AuthUser) (v c : String) (q : Int)
    (r n : Option String) (s : Stock)
    (hv : v ≠ "") (hc : c ≠ "") (hu : u.userId ≠ "")
    (hfind : findStock st.stocks v c = some s)
    (hq : 0 < q) (hok : 0 ≤ s.quantity - q) :
    ∃ adj, createAdjustment st u v c "subtract" q r n =
        .ok ({ st with stocks := mapQty st.stocks v c (fun _ => s.quantity - q),
                       adjustments := st.adjustments ++ [adj] },
             ({ s with quantity := s.quantity - q }, adj)) ∧
      adj.previousQty = s.quantity ∧ adj.newQty = s.quantity - q ∧ adj.difference = -q := by
  have hts : ("subtract" : String) ≠ "" := by decide
  have hta : ("subtract" : String) ≠ "add" := by decide
  have hqne : q ≠ 0 := by omega
  have hqle : ¬ q ≤ 0 := by omega
  have hnlt : ¬ s.quantity + -q < 0 := by omega
  have hsub : s.quantity - q = s.quantity + -q := by omega
  rw [hsub]
  simp [createAdjustment, hfind, hv, hc, hu, hts, hta, hqne, hqle, hnlt]

/-- Claim C8: on an existing row, adding Q and then subtracting Q (both succeeding)
returns the row to its original quantity; the two audit rows appended record
differences +Q and −Q, which sum to zero. -/
theorem adjustment_round_trip (st : State) (u : AuthUser) (v c : String) (q : Int)
    (s : Stock) (r1 r2 n1 n2 : Option String)
    (hv : v ≠ "") (hc : c ≠ "") (hu : u.userId ≠ "")
    (hfind : findStock st.stocks v c = some s)
    (hnn : 0 ≤ s.quantity) (hq : 0 < q) :
    ∃ st1 res1 st2 res2,
      createAdjustment st u v c "add" q r1 n1 = .ok (st1, res1) ∧
      createAdjustment st1 u v c "subtract" q r2 n2 = .ok (st2, res2) ∧
      findStock st2.stocks v c = some s ∧
      res1.2.difference = q ∧ res2.2.difference = -q ∧
      res1.2.difference + res2.2.difference = 0 ∧
      st2.adjustments = st.adjustments ++ [res1.2, res2.2] := by
  obtain ⟨adj1, h1, hp1, hn1, hd1⟩ :=
    createAdjustment_add_ok st u v c q r1 n1 s hv hc hu hfind hq (by omega)
  have hfind1 : findStock (mapQty st.stocks v c (fun _ => s.quantity + q)) v c =
      some { s with quantity := s.quantity + q } :=
    findStock_mapQty_self _ hfind
  obtain ⟨adj2, h2, hp2, hn2, hd2⟩ :=
    createAdjustment_sub_ok
      ({ st with stocks := mapQty st.stocks v c (fun _ => s.quantity + q),
                 adjustments := st.adjustments ++ [adj1] })
      u v c q r2 n2 { s with quantity := s.quantity + q }
      hv hc hu hfind1 hq (by simp; omega)
  refine ⟨_, _, _, _, h1, h2, ?_, hd1, ?_, ?_, ?_⟩
  · show findStock (mapQty (mapQty st.stocks v c (fun _ => s.quantity + q)) v c
      (fun _ => ({ s with quantity := s.quantity + q } : Stock).quantity - q)) v c = some s
    rw [findStock_mapQty_self _ hfind1]
    have : ({ s with quantity := s.quantity + q } : Stock).quantity - q = s.quantity := by
      simp
    rw [this]
  · simpa using hd2
  · simp [hd1, hd2]
  · show (st.adjustments ++ [adj1]) ++ [adj2] = st.adjustments ++ [adj1, adj2]
    simp

/-- Witness for claim C8: quantity 10, Q = 7: differences +7 and −7, back to 10. -/
theorem adjustment_round_trip_witness :
    ∃ st1 res1 st2 res2,
      createAdjustment unknownReasonState { userId := "u1", role := .ADMIN }
        "v1" "b1" "add" 7 none none = .ok (st1, res1) ∧
      createAdjustment st1 { userId := "u1", role := .ADMIN }
        "v1" "b1" "subtract" 7 none none = .ok (st2, res2) ∧
      findStock st2.stocks "v1" "b1" =
        some { productVariantId := "v1", cabangId := "b1", quantity := 10, price := 5 } ∧
      res1.2.difference = 7 ∧ res2.2.difference = -7 ∧
      res1.2.difference + res2.2.difference = 0 ∧
      st2.adjustments = unknownReasonState.adjustments ++ [res1.2, res2.2] :=
  adjustment_round_trip unknownReasonState { userId := "u1", role := .ADMIN } "v1" "b1" 7
    { productVariantId := "v1", cabangId := "b1", quantity := 10, price := 5 }
    none none none none (by decide) (by decide) (by decide) (by decide) (by decide) (by decide)

/-! ### listLowStock characterization -/

theorem find?_filter {α : Type} (l : List α) (p q : α → Bool) :
    (l.filter p).find? q = l.find? (fun x => p x && q x) := by
  induction l with
  | nil => rfl
  | cons x xs ih =>
    by_cases hp : p x
    · by_cases hq : q x
      · simp [List.filter_cons, hp, List.find?_cons, hq]
      · simp [List.filter_cons, hp, List.find?_cons, hq, ih]
    · simp [List.filter_cons, hp, List.find?_cons, ih]

theorem find?_congr {α : Type} (l : List α) (p q : α → Bool) (h : ∀ x, p x = q x) :
    l.find? p = l.find? q := by
  have hpq : p = q := funext h
  rw [hpq]

theorem lowStock_filter_eq (st : State) (c? : Option String) (a : StockAlert)
    (hc : ∀ cb, c? = some cb → a.cabangId = cb) :
    (st.stocks.filter (fun s => s.productVariantId == a.productVariantId &&
        (match c? with | some c => s.cabangId == c | none => true))).find?
      (fun s => s.cabangId == a.cabangId) =
      findStock st.stocks a.productVariantId a.cabangId := by
  rw [find?_filter]
  apply find?_congr
  intro x
  cases c? with
  | none => simp [stockKeyMatches]
  | some cb =>
    have hcb := hc cb rfl
    subst hcb
    simp [stockKeyMatches, Bool.and_assoc]

/-- Claim C9: listLowStock returns exactly the active alerts — optionally restricted
to the requested branch — whose (variant, branch) pair currently has a stock
row strictly below the alert's threshold, read from the live stock table at
call time. -/
theorem listLowStock_spec (st : State) (c? : Option String) (a : StockAlert) :
    a ∈ listLowStock st c? ↔
      a ∈ st.alerts ∧ a.isActive = true ∧
      (∀ cb, c? = some cb → a.cabangId = cb) ∧
      (∃ s, findStock st.stocks a.productVariantId a.cabangId = some s ∧
        s.quantity < a.minStock) := by
  simp only [listLowStock, List.mem_filter]
  constructor
  · rintro ⟨⟨ha, hP⟩, hQ⟩
    have hactive : a.isActive = true := by
      cases c? <;> simp_all
    have hc : ∀ cb, c? = some cb → a.cabangId = cb := by
      intro cb hcb
      subst hcb
      simp at hP
      exact hP.2
    refine ⟨ha, hactive, hc, ?_⟩
    rw [lowStock_filter_eq st c? a hc] at hQ
    cases hfs : findStock st.stocks a.productVariantId a.cabangId with
    | none => rw [hfs] at hQ; simp at hQ
    | some s =>
      rw [hfs] at hQ
      simp at hQ
      exact ⟨s, rfl, hQ⟩
  · rintro ⟨ha, hactive, hc, s, hfs, hlt⟩
    refine ⟨⟨ha, ?_⟩, ?_⟩
    · cases c? with
      | none => simp [hactive]
      | some cb => simp [hactive, hc cb rfl]
    · rw [lowStock_filter_eq st c? a hc, hfs]
      simpa using hlt

/-- Witness for claim C9 at spec scenario D: minQty 5 and quantity 3 — the pair is
listed for its branch. -/
theorem listLowStock_spec_witness :
    ({ productVariantId := "V1", cabangId := "B1", minStock := 5, isActive := true } :
        StockAlert) ∈
      listLowStock
        { stocks := [{ productVariantId := "V1", cabangId := "B1", quantity := 3, price := 4 }],
          adjustments := [], transfers := [],
          alerts := [{ productVariantId := "V1", cabangId := "B1", minStock := 5,
                       isActive := true }] }
        (some "B1") :=
  (listLowStock_spec _ (some "B1") _).mpr
    ⟨by decide, rfl, by intro cb h; cases h; rfl,
     ⟨{ productVariantId := "V1", cabangId := "B1", quantity := 3, price := 4 },
      by decide, by decide⟩⟩
